import Mathlib

/-!
Shallow embedding of the GoGovCode clearance/policy/audit core.

The definitions below translate the Go source of the repository:
  * `pkg/models` (device registry, clearance and layer model),
  * `internal/policy/policy.go` (policy engine),
  * `internal/audit/audit.go` (audit logger),
  * `api/middleware/clearance.go` (clearance enforcement gate).

Go machine integers are modelled as `Nat` with explicit `% 2^16` / `% 2^32`
where the Go code performs 16- or 32-bit arithmetic that can overflow.
Go maps are modelled as association lists with overwrite-on-insert
semantics.  Fallible Go functions returning `error` are modelled with
`Except String` or `Option String`.
-/

namespace GoGov

/-! ## Device model (`pkg/models`, file `device.go`) -/

/-- `Device` record.  Go: `type Device struct {ID uint16; Layer Layer;
Class DeviceClass; Clearance Clearance; Name string; TokenBase uint16}`.
`Layer` and `DeviceClass` are Go string types, modelled as `String`;
`Clearance` is a Go `uint32`, modelled as `Nat` (< 2^32 for representable
values). -/
structure Device where
  ID : Nat
  Layer : String
  Class : String
  Clearance : Nat
  Name : String
  TokenBase : Nat
  deriving DecidableEq

/-- `Device.ComputeToken`: Go `0x8000 + (d.ID * 3) + uint16(offset)` in
`uint16` arithmetic (each operation wraps mod 2^16). -/
def ComputeToken (d : Device) (offset : Nat) : Nat :=
  ((0x8000 + (d.ID * 3) % 65536) % 65536 + offset % 65536) % 65536

/-- `Clearance.Level()`: Go `int((c >> 24) & 0xFF)`. -/
def Level (c : Nat) : Nat :=
  (c >>> 24) &&& 0xFF

/-- `Clearance.IsHigherOrEqual`: Go `c >= other` (unsigned comparison). -/
def IsHigherOrEqual (c other : Nat) : Bool :=
  decide (other ≤ c)

/-- `models.ValidateClearance`: level must be between 2 and 9. -/
def ValidateClearance (c : Nat) : Bool :=
  decide (2 ≤ Level c) && decide (Level c ≤ 9)

/-- Layer order used by `models.CanAccessLayer`; unknown tags have no
entry (Go map lookup failure), modelled by `none`. -/
def layerOrder (l : String) : Option Nat :=
  if l = "data" then some 1
  else if l = "transport" then some 2
  else if l = "control" then some 3
  else if l = "application" then some 4
  else none

/-- `models.CanAccessLayer`: allow same layer or upward flow; unknown
layers fail closed. -/
def CanAccessLayer (sourceLayer targetLayer : String) : Bool :=
  match layerOrder sourceLayer, layerOrder targetLayer with
  | some s, some t => decide (s ≤ t)
  | _, _ => false

/-! ## Go map model

Association lists with overwrite-on-insert, modelling `map[uint16]*Device`. -/

/-- Lookup in the association-list model of a Go map. -/
def mapLookup : List (Nat × Device) → Nat → Option Device
  | [], _ => none
  | (k, v) :: rest, key => if k = key then some v else mapLookup rest key

/-- Remove all entries with the given key. -/
def mapErase : List (Nat × Device) → Nat → List (Nat × Device)
  | [], _ => []
  | (k, v) :: rest, key =>
    if k = key then mapErase rest key else (k, v) :: mapErase rest key

/-- Go map assignment `m[k] = v`: the new binding shadows any old one. -/
def mapInsert (m : List (Nat × Device)) (key : Nat) (v : Device) :
    List (Nat × Device) :=
  (key, v) :: mapErase m key

/-! ## Device registry (`pkg/models`) -/

/-- `DeviceRegistry`: forward map ID → Device and reverse map
token → Device. -/
structure DeviceRegistry where
  devices : List (Nat × Device)
  tokens : List (Nat × Device)
  deriving DecidableEq

/-- `models.NewDeviceRegistry`. -/
def NewDeviceRegistry : DeviceRegistry :=
  { devices := [], tokens := [] }

/-- `DeviceRegistry.Register`: reject duplicate IDs, compute `TokenBase`
(`0x8000 + ID*3` in `uint16` arithmetic) and insert the device under its
ID and its three tokens. -/
def Register (r : DeviceRegistry) (device : Device) :
    Except String DeviceRegistry :=
  if (mapLookup r.devices device.ID).isSome then
    .error "device already registered"
  else
    let device := { device with
      TokenBase := (0x8000 + (device.ID * 3) % 65536) % 65536 }
    let devices := mapInsert r.devices device.ID device
    let tokens0 := mapInsert r.tokens (ComputeToken device 0) device
    let tokens1 := mapInsert tokens0 (ComputeToken device 1) device
    let tokens2 := mapInsert tokens1 (ComputeToken device 2) device
    .ok { devices := devices, tokens := tokens2 }

/-- `DeviceRegistry.GetDevice`. -/
def GetDevice (r : DeviceRegistry) (deviceID : Nat) : Except String Device :=
  match mapLookup r.devices deviceID with
  | some d => .ok d
  | none => .error "device not found"

/-- `DeviceRegistry.GetDeviceByToken`: on a hit, the offset is
`(tokenID - device.TokenBase) % 3` in `uint16` arithmetic (the
subtraction wraps mod 2^16). -/
def GetDeviceByToken (r : DeviceRegistry) (tokenID : Nat) :
    Except String (Device × Nat) :=
  match mapLookup r.tokens tokenID with
  | some device =>
    .ok (device,
      ((tokenID % 65536 + 65536 - device.TokenBase % 65536) % 65536) % 3)
  | none => .error "token not found"

/-- Folding `Register` over a list of devices, failing on the first
rejected registration (a sequence of successful `Register` calls). -/
def RegisterAll (r : DeviceRegistry) : List Device → Except String DeviceRegistry
  | [] => .ok r
  | d :: ds =>
    match Register r d with
    | .ok r2 => RegisterAll r2 ds
    | .error e => .error e

/-- Helper: extract the registry from a successful result (used only to
name concrete registries in closed statements). -/
def regOrEmpty : Except String DeviceRegistry → DeviceRegistry
  | .ok r => r
  | .error _ => NewDeviceRegistry

/-- Helper: `Except` success test. -/
def exceptIsOk {ε α : Type} : Except ε α → Bool
  | .ok _ => true
  | .error _ => false

/-! ## Policy engine (`internal/policy/policy.go`)

`Effect` is a Go string type with constants `"allow"` / `"deny"`,
modelled as `String`.  `Priority` is a Go `int`, modelled as `Int`. -/

/-- `policy.Rule`. -/
structure Rule where
  id : String
  name : String
  effect : String
  routes : List String
  methods : List String
  requiredClearance : Nat
  allowedLayers : List String
  allowedDevices : List Nat
  deniedDevices : List Nat
  priority : Int
  deriving DecidableEq

/-- `policy.Policy`. -/
structure Policy where
  version : String
  rules : List Rule
  deriving DecidableEq

/-- `policy.Context`: the request context for policy evaluation. -/
structure Context where
  route : String
  method : String
  deviceID : Nat
  layer : String
  clearance : Nat
  requestID : String
  sourceIP : String
  tokenID : Nat
  tokenOffset : Nat
  deriving DecidableEq

/-- `policy.Decision`. -/
structure Decision where
  effect : String
  reason : String
  ruleID : String
  ruleName : String
  deriving DecidableEq

/-- `policy.Engine`: current policy plus an optional device registry
(`nil` registry modelled as `none`).  The `sync.RWMutex` guards
concurrent access only and carries no sequential meaning. -/
structure Engine where
  policy : Policy
  registry : Option DeviceRegistry
  deriving DecidableEq

/-- `policy.NewEngine`. -/
def NewEngine (registry : Option DeviceRegistry) : Engine :=
  { policy := { version := "1.0", rules := [] }, registry := registry }

/-- `strings.HasSuffix`, modelled over the character list (equivalent
to Go's byte-suffix test on UTF-8 strings). -/
def strEndsWith (s suffix : String) : Bool :=
  suffix.data.isSuffixOf s.data

/-- `strings.HasPrefix`, modelled over the character list. -/
def strStartsWith (s pre : String) : Bool :=
  pre.data.isPrefixOf s.data

/-- Drop the final character (`strings.TrimSuffix ... "*"` once the
one-character suffix is known to be present). -/
def strDropLast (s : String) : String :=
  String.mk s.data.dropLast

/-- `policy.matchesRoute`: empty pattern list matches everything;
otherwise exact match, global wildcard, or trailing-`*` whole-string
match (`strings.TrimSuffix` drops the final star, `strings.HasPrefix`
checks the remainder). -/
def matchesRoute (patterns : List String) (route : String) : Bool :=
  if patterns.length = 0 then true
  else patterns.any fun pattern =>
    pattern == "*" || pattern == route ||
      (strEndsWith pattern "*" && strStartsWith route (strDropLast pattern))

/-- `policy.matchesMethod`: empty method list matches everything;
otherwise exact match or wildcard. -/
def matchesMethod (methods : List String) (method : String) : Bool :=
  if methods.length = 0 then true
  else methods.any fun m => m == "*" || m == method

/-- `policy.containsLayer`. -/
def containsLayer (layers : List String) (layer : String) : Bool :=
  layers.any fun l => l == layer

/-- `policy.containsDevice`. -/
def containsDevice (devices : List Nat) (deviceID : Nat) : Bool :=
  devices.any fun d => d == deviceID

/-- `Engine.ruleMatches` (the receiver is unused in the Go method, so
the embedding takes no engine argument): route, method, clearance and
layer checks in order, then the denied-device short-circuit, then the
allowed-device membership test. -/
def ruleMatches (rule : Rule) (ctx : Context) : Bool :=
  if !(matchesRoute rule.routes ctx.route) then false
  else if !(matchesMethod rule.methods ctx.method) then false
  else if decide (0 < rule.requiredClearance) &&
      !(IsHigherOrEqual ctx.clearance rule.requiredClearance) then false
  else if decide (0 < rule.allowedLayers.length) &&
      !(containsLayer rule.allowedLayers ctx.layer) then false
  else if containsDevice rule.deniedDevices ctx.deviceID then true
  else if decide (0 < rule.allowedDevices.length) &&
      !(containsDevice rule.allowedDevices ctx.deviceID) then false
  else true

/-- Conflict message built by `policy.checkConflict`
(`fmt.Sprintf("conflicting effects on route %s method %s with same
priority", route1, method1)`; the source wraps the rule names in
single quotes nowhere here). -/
def conflictMsg (route1 method1 : String) : String :=
  "conflicting effects on route " ++ route1 ++ " method " ++ method1 ++
    " with same priority"

/-- Inner double loop of `checkConflict` over the two method lists:
first Go iteration hitting `method1 == method2 || method1 == "*" ||
method2 == "*"` returns the message. -/
def methodConflict (route1 : String) (methods1 methods2 : List String) :
    Option String :=
  methods1.findSome? fun method1 =>
    methods2.findSome? fun method2 =>
      if method1 == method2 || method1 == "*" || method2 == "*" then
        some (conflictMsg route1 method1)
      else none

/-- `policy.checkConflict`: same priority, opposite effects, an exactly
equal route string in both lists (NO wildcard handling on routes), and
overlapping methods (equality or `*`).  Returns `""` when no conflict. -/
def checkConflict (r1 r2 : Rule) : String :=
  if r1.effect ≠ r2.effect ∧ r1.priority = r2.priority then
    match r1.routes.findSome? (fun route1 =>
        r2.routes.findSome? fun route2 =>
          if route1 == route2 then methodConflict route1 r1.methods r2.methods
          else none) with
    | some s => s
    | none => ""
  else ""

/-- Per-rule validation checks of `Engine.Validate` before the conflict
scan, in source order: empty ID, invalid effect, duplicate ID, invalid
clearance, invalid layer, unknown devices (only when a registry is
attached).  Returns the first error, `none` when the rule is accepted. -/
def checkRule (registry : Option DeviceRegistry) (i : Nat) (rule : Rule)
    (seen : List String) : Option String :=
  if rule.id = "" then some ("rule " ++ toString i ++ ": ID is required")
  else if rule.effect ≠ "allow" ∧ rule.effect ≠ "deny" then
    some ("rule " ++ rule.id ++ ": invalid effect " ++ rule.effect)
  else if seen.contains rule.id then
    some ("rule " ++ rule.id ++ ": duplicate rule ID")
  else if !(ValidateClearance rule.requiredClearance) ∧
      rule.requiredClearance ≠ 0 then
    some ("rule " ++ rule.id ++ ": invalid clearance level")
  else if rule.allowedLayers.any (fun layer =>
      !(layer == "data" || layer == "transport" || layer == "control" ||
        layer == "application")) then
    some ("rule " ++ rule.id ++ ": invalid layer")
  else
    match registry with
    | none => none
    | some reg =>
      if rule.allowedDevices.any
          (fun deviceID => !(exceptIsOk (GetDevice reg deviceID))) then
        some ("rule " ++ rule.id ++ ": unknown device")
      else if rule.deniedDevices.any
          (fun deviceID => !(exceptIsOk (GetDevice reg deviceID))) then
        some ("rule " ++ rule.id ++ ": unknown device")
      else none

/-- Main loop of `Engine.Validate` over the rule list, carrying the
rule index, the set of seen IDs, and the accumulated conflict strings.
Each rule is checked, then pairwise conflicts with all later rules are
collected. -/
def validateRules (registry : Option DeviceRegistry) :
    Nat → List String → List String → List Rule → Except String (List String)
  | _, _, conflicts, [] => .ok conflicts
  | i, seen, conflicts, rule :: rest =>
    match checkRule registry i rule seen with
    | some msg => .error msg
    | none =>
      let newConflicts := rest.filterMap fun other =>
        if checkConflict rule other = "" then none
        else some (rule.id ++ " vs " ++ other.id ++ ": " ++
          checkConflict rule other)
      validateRules registry (i + 1) (rule.id :: seen)
        (conflicts ++ newConflicts) rest

/-- `Engine.Validate`: version must be present; each rule must pass its
checks; any detected conflicts abort the load with all conflicts
listed. -/
def Validate (e : Engine) (policy : Policy) : Except String Unit :=
  if policy.version = "" then .error "policy version is required"
  else
    match validateRules e.registry 0 [] [] policy.rules with
    | .error msg => .error msg
    | .ok conflicts =>
      if 0 < conflicts.length then
        .error ("policy conflicts detected: " ++
          String.intercalate "; " conflicts)
      else .ok ()

/-- `Engine.LoadFromJSON`: the JSON parse step is modelled by an
`Option Policy` input (`none` = `json.Unmarshal` failure).  On any
error the engine is returned unchanged; on success the active policy is
replaced wholesale.  Returns the error (if any) together with the
resulting engine state. -/
def LoadFromJSON (e : Engine) (parsed : Option Policy) :
    Option String × Engine :=
  match parsed with
  | none => (some "failed to parse policy JSON", e)
  | some policy =>
    match Validate e policy with
    | .error msg => (some ("policy validation failed: " ++ msg), e)
    | .ok _ => (none, { e with policy := policy })

/-- `Engine.GetPolicy` (the Go copy returns an equal value). -/
def GetPolicy (e : Engine) : Policy :=
  e.policy

/-- Selection loop of `Engine.Evaluate`: scan the rules, remembering
the first matching rule whose priority strictly exceeds the running
maximum, which starts at `-1`. -/
def selectRule (ctx : Context) :
    Option Rule → Int → List Rule → Option Rule × Int
  | matched, highestPriority, [] => (matched, highestPriority)
  | matched, highestPriority, rule :: rest =>
    if ruleMatches rule ctx && decide (highestPriority < rule.priority) then
      selectRule ctx (some rule) rule.priority rest
    else
      selectRule ctx matched highestPriority rest

/-- `Engine.Evaluate`: default deny with reason `"no matching policy
rule"`; otherwise the selected rule decides. -/
def Evaluate (e : Engine) (ctx : Context) : Decision :=
  match (selectRule ctx none (-1) e.policy.rules).1 with
  | none =>
    { effect := "deny", reason := "no matching policy rule",
      ruleID := "", ruleName := "" }
  | some rule =>
    { effect := rule.effect,
      reason :=
        (if rule.effect == "allow" then "allowed by rule " else
          "denied by rule ") ++ rule.name,
      ruleID := rule.id, ruleName := rule.name }

/-! ## Audit pipeline (`internal/audit/audit.go`)

`time.Time` is modelled as nanoseconds-since-epoch (`Nat`, `0` =
zero time).  The nondeterministic environment (`crypto/rand`,
`time.Now`) is passed explicitly: `randBytes = none` models a
`rand.Read` failure (the Go fallback path). -/

/-- `audit.AuditEvent` (the `AdditionalData` map is never populated by
the core and is omitted). -/
structure AuditEvent where
  eventID : String
  timestamp : Nat
  actor : String
  clearance : Nat
  deviceID : Nat
  layer : String
  action : String
  method : String
  resource : String
  decision : String
  reason : String
  requestID : String
  sourceIP : String
  statusCode : Nat
  deriving DecidableEq

/-- Environment for the audit logger: the outcome of `rand.Read` and
the current UTC time in nanoseconds. -/
structure AuditEnv where
  randBytes : Option (List Nat)
  nowNanos : Nat
  deriving DecidableEq

/-- Hex digit character (for `hex.EncodeToString`). -/
def hexChar (n : Nat) : Char :=
  if n < 10 then Char.ofNat (48 + n) else Char.ofNat (87 + n)

/-- `hex.EncodeToString` over a byte list. -/
def hexEncode (bs : List Nat) : String :=
  String.mk (bs.foldr (fun b acc => hexChar (b / 16) :: hexChar (b % 16) :: acc) [])

/-- `audit.generateEventID`: 16 random bytes hex-encoded with an
`evt-` marker, falling back to the timestamp on `rand.Read` failure. -/
def generateEventID (env : AuditEnv) : String :=
  match env.randBytes with
  | some b => "evt-" ++ hexEncode b
  | none => "evt-" ++ toString env.nowNanos

/-- `audit.Logger`: ordered writer list plus enabled flag.  A writer's
`Write` is modelled as a function from the event to an optional error
(`none` = success); its I/O side effect is outside the model. -/
structure Logger where
  writers : List (AuditEvent → Option String)
  enabled : Bool

/-- `audit.NewLogger`. -/
def NewLogger : Logger :=
  { writers := [], enabled := true }

/-- Writer loop of `Logger.Log`: call every writer in order, keeping
the last error; also counts the number of `Write` invocations. -/
def writeAll : List (AuditEvent → Option String) → AuditEvent →
    Option String → Option String × Nat
  | [], _, lastErr => (lastErr, 0)
  | w :: ws, event, lastErr =>
    let r := w event
    let lastErr2 := match r with
      | some err => some err
      | none => lastErr
    let rest := writeAll ws event lastErr2
    (rest.1, rest.2 + 1)

/-- `Logger.Log`: no-op when disabled; otherwise assign a generated
event ID and the current timestamp when absent, then write to all
writers.  Returns (last error, event as written, number of `Write`
invocations). -/
def Log (l : Logger) (env : AuditEnv) (event : AuditEvent) :
    Option String × AuditEvent × Nat :=
  if !l.enabled then (none, event, 0)
  else
    let event1 :=
      if event.eventID = "" then { event with eventID := generateEventID env }
      else event
    let event2 :=
      if event1.timestamp = 0 then { event1 with timestamp := env.nowNanos }
      else event1
    let written := writeAll l.writers event2 none
    (written.1, event2, written.2)

/-! ## Clearance enforcement gate (`api/middleware/clearance.go`) -/

/-- `strconv.ParseUint(s, 10, bits)`: decimal digits only, non-empty,
value within `bits` bits. -/
def parseUint (s : String) (bits : Nat) : Option Nat :=
  if s = "" then none
  else if s.data.all (fun c => c.isDigit) then
    let v := s.data.foldl (fun acc c => acc * 10 + (c.toNat - 48)) 0
    if v < 2 ^ bits then some v else none
  else none

/-- Hex digit value (for `strconv.ParseUint(s, 16, bits)`). -/
def hexVal (c : Char) : Option Nat :=
  if c.isDigit then some (c.toNat - 48)
  else if 97 ≤ c.toNat ∧ c.toNat ≤ 102 then some (c.toNat - 87)
  else if 65 ≤ c.toNat ∧ c.toNat ≤ 70 then some (c.toNat - 55)
  else none

/-- `strconv.ParseUint(s, 16, bits)`. -/
def parseHexUint (s : String) (bits : Nat) : Option Nat :=
  if s = "" then none
  else
    match s.data.mapM hexVal with
    | none => none
    | some ds =>
      let v := ds.foldl (fun acc d => acc * 16 + d) 0
      if v < 2 ^ bits then some v else none

/-- The four valid layer tags accepted by the middleware. -/
def validLayer (s : String) : Bool :=
  s == "data" || s == "transport" || s == "control" || s == "application"

/-- `middleware.ClearanceConfig`: the `nil`-able collaborators are
modelled as options; the audit logger only matters through its
presence, its events are collected in the result. -/
structure ClearanceConfig where
  policyEngine : Option Engine
  hasAuditLogger : Bool
  deviceRegistry : Option DeviceRegistry
  enabled : Bool

/-- The request attributes consumed by the middleware:
the four `X-…` headers (empty string = header absent), URL path, full
URL string, HTTP method, remote address and request-scoped ID. -/
structure Request where
  deviceIDHeader : String
  layerHeader : String
  clearanceHeader : String
  tokenIDHeader : String
  path : String
  url : String
  method : String
  remoteAddr : String
  requestID : String
  deriving DecidableEq

/-- Terminal behaviour of the gate for one request: pass to the next
handler (with the resolved identity placed in context), a 401
rejection, a 403 policy rejection, or pass-through with the middleware
disabled. -/
inductive GateOutcome where
  | skipped : GateOutcome
  | next (deviceID : Nat) (layer : String) (clearance : Nat) : GateOutcome
  | unauthorized (reason : String) : GateOutcome
  | forbidden (reason : String) : GateOutcome
  deriving DecidableEq

/-- `middleware.respondUnauthorized`: 401 JSON response plus (when an
audit logger is configured) one deny event with actor `"unknown"`. -/
def respondUnauthorized (config : ClearanceConfig) (req : Request)
    (reason : String) : GateOutcome × List AuditEvent :=
  (.unauthorized reason,
    if config.hasAuditLogger then
      [{ eventID := "", timestamp := 0, actor := "unknown", clearance := 0,
         deviceID := 0, layer := "", action := req.path,
         method := req.method, resource := req.url, decision := "deny",
         reason := reason, requestID := req.requestID,
         sourceIP := req.remoteAddr, statusCode := 401 }]
    else [])

/-- Device-ID header parsing step of the middleware (absent header
leaves the zero value). -/
def parseDeviceHeader (s : String) : Except String Nat :=
  if s = "" then .ok 0
  else
    match parseUint s 16 with
    | some v => .ok v
    | none => .error "invalid device ID"

/-- Clearance header parsing step: an optional `0x`/`0X` marker is
trimmed, the rest is parsed as 32-bit hex, and a non-zero parsed value
must be a valid clearance. -/
def parseClearanceHeader (s : String) : Except String Nat :=
  if s = "" then .ok 0
  else
    let s1 := if strStartsWith s "0x" then String.mk (s.data.drop 2) else s
    let s2 := if strStartsWith s1 "0X" then String.mk (s1.data.drop 2) else s1
    match parseHexUint s2 32 with
    | none => .error "invalid clearance format"
    | some v =>
      if !(ValidateClearance v) then .error "invalid clearance level"
      else .ok v

/-- Layer header validation step. -/
def parseLayerHeader (s : String) : Except String String :=
  if s = "" then .ok ""
  else if validLayer s then .ok s
  else .error "invalid layer"

/-- Token step of the middleware: parse the token header; on a
successful registry resolution override device ID, layer and clearance
from the device record; on a failed resolution (or absent registry)
continue silently with the header-supplied values.  Returns
`(deviceID, layer, clearance, tokenID, tokenOffset)`. -/
def resolveToken (registry : Option DeviceRegistry) (s : String)
    (deviceID : Nat) (layer : String) (clearance : Nat) :
    Except String (Nat × String × Nat × Nat × Nat) :=
  if s = "" then .ok (deviceID, layer, clearance, 0, 0)
  else
    match parseUint s 16 with
    | none => .error "invalid token ID"
    | some tid =>
      match registry with
      | none => .ok (deviceID, layer, clearance, tid, 0)
      | some reg =>
        match GetDeviceByToken reg tid with
        | .ok (device, offset) =>
          .ok (device.ID, device.Layer, device.Clearance, tid, offset)
        | .error _ => .ok (deviceID, layer, clearance, tid, 0)

/-- Device resolution step: when a positive device ID is present and a
registry is configured, the device must be registered; clearance and
layer default from the device record when not explicitly supplied. -/
def resolveDevice (registry : Option DeviceRegistry) (deviceID : Nat)
    (layer : String) (clearance : Nat) :
    Except String (String × Nat) :=
  if 0 < deviceID then
    match registry with
    | none => .ok (layer, clearance)
    | some reg =>
      match GetDevice reg deviceID with
      | .error _ => .error "device not registered"
      | .ok device =>
        let clearance2 := if clearance = 0 then device.Clearance else clearance
        let layer2 := if layer = "" then device.Layer else layer
        .ok (layer2, clearance2)
  else .ok (layer, clearance)

/-- Audit event built by the middleware after policy evaluation. -/
def decisionEvent (req : Request) (deviceID : Nat) (layer : String)
    (clearance : Nat) (decision : Decision) : AuditEvent :=
  { eventID := "", timestamp := 0,
    actor := "device-" ++ toString deviceID, clearance := clearance,
    deviceID := deviceID, layer := layer, action := req.path,
    method := req.method, resource := req.url,
    decision := if decision.effect == "allow" then "allow" else "deny",
    reason := decision.reason, requestID := req.requestID,
    sourceIP := req.remoteAddr,
    statusCode := if decision.effect == "allow" then 0 else 403 }

/-- `middleware.Clearance`: the full per-request gate, returning the
terminal outcome and the audit events emitted along the way. -/
def Clearance (config : ClearanceConfig) (req : Request) :
    GateOutcome × List AuditEvent :=
  if !config.enabled then (.skipped, [])
  else
    match parseDeviceHeader req.deviceIDHeader with
    | .error reason => respondUnauthorized config req reason
    | .ok deviceID0 =>
      match parseClearanceHeader req.clearanceHeader with
      | .error reason => respondUnauthorized config req reason
      | .ok clearance0 =>
        match parseLayerHeader req.layerHeader with
        | .error reason => respondUnauthorized config req reason
        | .ok layer0 =>
          match resolveToken config.deviceRegistry req.tokenIDHeader
              deviceID0 layer0 clearance0 with
          | .error reason => respondUnauthorized config req reason
          | .ok (deviceID, layer1, clearance1, tokenID, tokenOffset) =>
            match resolveDevice config.deviceRegistry deviceID layer1
                clearance1 with
            | .error reason => respondUnauthorized config req reason
            | .ok (layer, clearance) =>
              match config.policyEngine with
              | none => (.next deviceID layer clearance, [])
              | some engine =>
                let policyCtx : Context :=
                  { route := req.path, method := req.method,
                    deviceID := deviceID, layer := layer,
                    clearance := clearance, requestID := req.requestID,
                    sourceIP := req.remoteAddr, tokenID := tokenID,
                    tokenOffset := tokenOffset }
                let decision := Evaluate engine policyCtx
                let events :=
                  if config.hasAuditLogger then
                    [decisionEvent req deviceID layer clearance decision]
                  else []
                if decision.effect == "deny" then
                  (.forbidden decision.reason, events)
                else (.next deviceID layer clearance, events)

/-! ## Spec-side definitions for the conflict-overlap comparison -/

/-- Modelled from the spec: route overlap used by conflict detection,
"route equality or wildcard" — two route lists overlap when some pair
is equal or either element is the wildcard `*`. -/
def specRoutesOverlap (routes1 routes2 : List String) : Bool :=
  routes1.any fun r1 => routes2.any fun r2 =>
    r1 == r2 || r1 == "*" || r2 == "*"

/-- Modelled from the spec: method overlap, "method equality or
wildcard `*`". -/
def specMethodsOverlap (methods1 methods2 : List String) : Bool :=
  methods1.any fun m1 => methods2.any fun m2 =>
    m1 == m2 || m1 == "*" || m2 == "*"

/-- Modelled from the spec: two rules conflict when they have the same
priority, opposite effects, overlapping routes AND overlapping
methods. -/
def specConflict (r1 r2 : Rule) : Bool :=
  decide (r1.priority = r2.priority) && decide (r1.effect ≠ r2.effect) &&
    specRoutesOverlap r1.routes r2.routes &&
    specMethodsOverlap r1.methods r2.methods

/-! ## Concrete instances used in closed statements -/

/-- Device with ID 0 (token triplet 0x8000–0x8002). -/
def dev0 : Device :=
  { ID := 0, Layer := "data", Class := "sensor", Clearance := 0x03030303,
    Name := "d0", TokenBase := 0 }

/-- Device with ID 21845: `3 * 21845 = 65535`, so its token computation
wraps mod 2^16 and its triplet 0x7FFF–0x8001 overlaps that of
device 0. -/
def devBig : Device :=
  { ID := 21845, Layer := "control", Class := "controller",
    Clearance := 0x07070707, Name := "d1", TokenBase := 0 }

/-- Registry holding devices 0 and 21845 (both registrations
succeed). -/
def cexReg : DeviceRegistry :=
  regOrEmpty (RegisterAll NewDeviceRegistry [dev0, devBig])

/-- Device 0 as stored in `cexReg` (TokenBase filled by `Register`). -/
def regDev0 : Device :=
  { dev0 with TokenBase := 32768 }

/-- Device 21845 as stored in `cexReg`. -/
def regDevBig : Device :=
  { devBig with TokenBase := 32767 }

/-- Allow rule with a wildcard route list. -/
def c2rule1 : Rule :=
  { id := "r1", name := "R1", effect := "allow", routes := ["*"],
    methods := ["GET"], requiredClearance := 0, allowedLayers := [],
    allowedDevices := [], deniedDevices := [], priority := 0 }

/-- Deny rule on a concrete route, same priority and method as
`c2rule1`. -/
def c2rule2 : Rule :=
  { id := "r2", name := "R2", effect := "deny", routes := ["/x"],
    methods := ["GET"], requiredClearance := 0, allowedLayers := [],
    allowedDevices := [], deniedDevices := [], priority := 0 }

/-- Policy holding the two spec-conflicting rules above. -/
def c2policy : Policy :=
  { version := "1.0", rules := [c2rule1, c2rule2] }

/-- Engine without a registry. -/
def c2engine : Engine :=
  NewEngine none

/-- Rule with negative priority matching every request. -/
def c3rule : Rule :=
  { id := "neg", name := "Neg", effect := "allow", routes := [],
    methods := [], requiredClearance := 0, allowedLayers := [],
    allowedDevices := [], deniedDevices := [], priority := -5 }

/-- Engine whose only rule is the negative-priority rule. -/
def c3engine : Engine :=
  { policy := { version := "1.0", rules := [c3rule] }, registry := none }

/-- A plain request context. -/
def c3ctx : Context :=
  { route := "/a", method := "GET", deviceID := 0, layer := "",
    clearance := 0, requestID := "", sourceIP := "", tokenID := 0,
    tokenOffset := 0 }

/-- Device 5 for the gate scenario. -/
def c4device : Device :=
  { ID := 5, Layer := "data", Class := "sensor", Clearance := 0x03030303,
    Name := "dev5", TokenBase := 0 }

/-- Registry holding only device 5 (tokens 0x800F–0x8011; token 999 is
unknown). -/
def c4reg : DeviceRegistry :=
  regOrEmpty (Register NewDeviceRegistry c4device)

/-- Allow-everything rule at priority 1. -/
def c4rule : Rule :=
  { id := "allow-all", name := "AllowAll", effect := "allow", routes := [],
    methods := [], requiredClearance := 0, allowedLayers := [],
    allowedDevices := [], deniedDevices := [], priority := 1 }

/-- Engine over `c4reg` with the allow-everything policy. -/
def c4engine : Engine :=
  { policy := { version := "1.0", rules := [c4rule] },
    registry := some c4reg }

/-- Fully wired gate configuration (enforcement on, audit on). -/
def c4config : ClearanceConfig :=
  { policyEngine := some c4engine, hasAuditLogger := true,
    deviceRegistry := some c4reg, enabled := true }

/-- Request claiming device 5 and carrying the unknown token 999. -/
def c4req : Request :=
  { deviceIDHeader := "5", layerHeader := "", clearanceHeader := "",
    tokenIDHeader := "999", path := "/x", url := "/x", method := "GET",
    remoteAddr := "1.2.3.4", requestID := "req-1" }

/-- Allow rule on route `/t`, priority 5 (for a genuine conflict). -/
def c2wrule1 : Rule :=
  { id := "w1", name := "W1", effect := "allow", routes := ["/t"],
    methods := ["GET"], requiredClearance := 0, allowedLayers := [],
    allowedDevices := [], deniedDevices := [], priority := 5 }

/-- Deny rule on the same route, method and priority as `c2wrule1`. -/
def c2wrule2 : Rule :=
  { id := "w2", name := "W2", effect := "deny", routes := ["/t"],
    methods := ["GET"], requiredClearance := 0, allowedLayers := [],
    allowedDevices := [], deniedDevices := [], priority := 5 }

/-- Policy holding the two genuinely conflicting rules. -/
def c2wpolicy : Policy :=
  { version := "1.0", rules := [c2wrule1, c2wrule2] }

/-- Concrete logger for the C9 witness: a failing writer followed by a
succeeding one. -/
def c9logger : Logger :=
  { writers := [fun _ => some "writer one failed", fun _ => none],
    enabled := true }

/-- Concrete audit environment (rand failure, fixed clock). -/
def c9env : AuditEnv :=
  { randBytes := none, nowNanos := 42 }

/-- Concrete event with no ID and no timestamp. -/
def c9event : AuditEvent :=
  { eventID := "", timestamp := 0, actor := "a", clearance := 0,
    deviceID := 0, layer := "", action := "/a", method := "GET",
    resource := "/a", decision := "deny", reason := "r", requestID := "",
    sourceIP := "", statusCode := 401 }

/-- Device 5 as stored in `c4reg` (TokenBase `0x8000 + 15`). -/
def regC4dev : Device :=
  { c4device with TokenBase := 32783 }

/-- Registry well-formedness invariant maintained by `Register` for
devices whose IDs stay below the 16-bit token wrap (`ID < 10922`):
every registered device is keyed by its own ID, has the computed
`TokenBase`, and its three tokens resolve back to it; conversely every
live token entry belongs to a registered device at one of its three
offsets. -/
def RegInv (r : DeviceRegistry) : Prop :=
  (∀ k d, mapLookup r.devices k = some d →
    d.ID = k ∧ d.ID < 10922 ∧ d.TokenBase = 0x8000 + d.ID * 3 ∧
    ∀ o, o < 3 → mapLookup r.tokens (0x8000 + d.ID * 3 + o) = some d) ∧
  (∀ t d, mapLookup r.tokens t = some d →
    mapLookup r.devices d.ID = some d ∧ ∃ o, o < 3 ∧ t = 0x8000 + d.ID * 3 + o)

/-! ## Helper lemmas -/

/-- If no rule in the list matches the context, the selection loop
returns its accumulator unchanged. -/
theorem selectRule_of_no_match (ctx : Context) (m : Option Rule) (hp : Int)
    (l : List Rule) (h : ∀ r ∈ l, ruleMatches r ctx = false) :
    selectRule ctx m hp l = (m, hp) := by
  induction l with
  | nil => rfl
  | cons rule rest ih =>
    have hr : ruleMatches rule ctx = false := h rule (by simp)
    simp only [selectRule, hr, Bool.false_and, Bool.false_eq_true, if_false]
    exact ih fun r hrm => h r (by simp [hrm])

/-! ## Claim theorems -/

/-- Claim C5 (confirmed): with no matching rule, `Evaluate` returns the
fail-closed default: deny, reason exactly `"no matching policy rule"`,
empty rule ID and rule name.  `Evaluate` is a total function into
`Decision`, so it returns a decision (never an error) on every
input. -/
theorem C5_fail_closed_default (e : Engine) (ctx : Context)
    (h : ∀ r ∈ e.policy.rules, ruleMatches r ctx = false) :
    Evaluate e ctx =
      { effect := "deny", reason := "no matching policy rule",
        ruleID := "", ruleName := "" } := by
  unfold Evaluate
  rw [selectRule_of_no_match ctx none (-1) _ h]

/-- Witness for C5 at a concrete engine and context. -/
theorem C5_fail_closed_default_witness :
    Evaluate c2engine c3ctx =
      { effect := "deny", reason := "no matching policy rule",
        ruleID := "", ruleName := "" } :=
  C5_fail_closed_default c2engine c3ctx (by decide)

/-- Claim C8 (confirmed): when the route, method, clearance and layer
checks pass and the context device is in the denied-device list, the
rule matches no matter what the allowed-device list holds (the
allow-list is not consulted); and the denied-device short-circuit never
fires when the route or method check fails — the rule does not match
then. -/
theorem C8_denied_device_precedence (rule : Rule) (ctx : Context) :
    (matchesRoute rule.routes ctx.route = true →
      matchesMethod rule.methods ctx.method = true →
      (0 < rule.requiredClearance → rule.requiredClearance ≤ ctx.clearance) →
      (rule.allowedLayers ≠ [] →
        containsLayer rule.allowedLayers ctx.layer = true) →
      containsDevice rule.deniedDevices ctx.deviceID = true →
      ∀ allowed : List Nat,
        ruleMatches { rule with allowedDevices := allowed } ctx = true) ∧
    ((matchesRoute rule.routes ctx.route = false ∨
       matchesMethod rule.methods ctx.method = false) →
      ruleMatches rule ctx = false) := by
  constructor
  · intro hroute hmethod hclear hlayer hdenied allowed
    have hc2 : (decide (0 < rule.requiredClearance) &&
        !(IsHigherOrEqual ctx.clearance rule.requiredClearance)) = false := by
      by_cases hc : 0 < rule.requiredClearance
      · simp [IsHigherOrEqual, hc, hclear hc]
      · simp [hc]
    have hl2 : (decide (0 < rule.allowedLayers.length) &&
        !(containsLayer rule.allowedLayers ctx.layer)) = false := by
      by_cases hl : rule.allowedLayers = []
      · simp [hl]
      · simp [hlayer hl]
    simp [ruleMatches, hroute, hmethod, hdenied, hc2, hl2]
  · intro h
    rcases h with h | h <;> simp [ruleMatches, h]

/-- Witness for C8: both conjuncts applied at concrete inputs — a rule
denying device 7 with an allow-list not containing it, and a rule whose
route does not match. -/
theorem C8_denied_device_precedence_witness :
    ruleMatches
      { id := "d", name := "D", effect := "deny", routes := ["/r"],
        methods := ["GET"], requiredClearance := 0, allowedLayers := [],
        allowedDevices := [1], deniedDevices := [7], priority := 1 }
      { route := "/r", method := "GET", deviceID := 7, layer := "",
        clearance := 0, requestID := "", sourceIP := "", tokenID := 0,
        tokenOffset := 0 } = true ∧
    ruleMatches
      { id := "d", name := "D", effect := "deny", routes := ["/other"],
        methods := ["GET"], requiredClearance := 0, allowedLayers := [],
        allowedDevices := [], deniedDevices := [7], priority := 1 }
      { route := "/r", method := "GET", deviceID := 7, layer := "",
        clearance := 0, requestID := "", sourceIP := "", tokenID := 0,
        tokenOffset := 0 } = false :=
  ⟨(C8_denied_device_precedence
      { id := "d", name := "D", effect := "deny", routes := ["/r"],
        methods := ["GET"], requiredClearance := 0, allowedLayers := [],
        allowedDevices := [1], deniedDevices := [7], priority := 1 }
      { route := "/r", method := "GET", deviceID := 7, layer := "",
        clearance := 0, requestID := "", sourceIP := "", tokenID := 0,
        tokenOffset := 0 }).1
    (by decide) (by decide) (by decide) (by decide) (by decide) [1],
   (C8_denied_device_precedence
      { id := "d", name := "D", effect := "deny", routes := ["/other"],
        methods := ["GET"], requiredClearance := 0, allowedLayers := [],
        allowedDevices := [], deniedDevices := [7], priority := 1 }
      { route := "/r", method := "GET", deviceID := 7, layer := "",
        clearance := 0, requestID := "", sourceIP := "", tokenID := 0,
        tokenOffset := 0 }).2
    (Or.inl (by decide))⟩

/-- Claim C10 (confirmed): an empty route-pattern list accepts every
route and an empty method list accepts every method; hence a rule with
both lists empty matches exactly when its clearance, layer and device
conditions hold. -/
theorem C10_empty_patterns_match_all :
    (∀ route, matchesRoute [] route = true) ∧
    (∀ method, matchesMethod [] method = true) ∧
    (∀ (rule : Rule) (ctx : Context), rule.routes = [] → rule.methods = [] →
      (ruleMatches rule ctx = true ↔
        ((0 < rule.requiredClearance →
           rule.requiredClearance ≤ ctx.clearance) ∧
         (rule.allowedLayers ≠ [] →
           containsLayer rule.allowedLayers ctx.layer = true) ∧
         (containsDevice rule.deniedDevices ctx.deviceID = true ∨
          rule.allowedDevices = [] ∨
          containsDevice rule.allowedDevices ctx.deviceID = true)))) := by
  refine ⟨fun _ => rfl, fun _ => rfl, fun rule ctx hr hm => ?_⟩
  simp only [ruleMatches, hr, hm, matchesRoute, matchesMethod,
    List.length_nil, if_pos rfl, Bool.not_true, Bool.false_eq_true,
    if_false, IsHigherOrEqual]
  by_cases hc : 0 < rule.requiredClearance <;>
    by_cases hcl : rule.requiredClearance ≤ ctx.clearance <;>
    by_cases hl : rule.allowedLayers = [] <;>
    by_cases hcontl : containsLayer rule.allowedLayers ctx.layer = true <;>
    by_cases hd : containsDevice rule.deniedDevices ctx.deviceID = true <;>
    by_cases ha : rule.allowedDevices = [] <;>
    by_cases hconta : containsDevice rule.allowedDevices ctx.deviceID = true <;>
    simp_all

/-- Witness for C10 at concrete inputs. -/
theorem C10_empty_patterns_match_all_witness :
    matchesRoute [] "/anything" = true ∧
    matchesMethod [] "PATCH" = true ∧
    (ruleMatches c3rule c3ctx = true ↔
      ((0 < c3rule.requiredClearance →
         c3rule.requiredClearance ≤ c3ctx.clearance) ∧
       (c3rule.allowedLayers ≠ [] →
         containsLayer c3rule.allowedLayers c3ctx.layer = true) ∧
       (containsDevice c3rule.deniedDevices c3ctx.deviceID = true ∨
        c3rule.allowedDevices = [] ∨
        containsDevice c3rule.allowedDevices c3ctx.deviceID = true))) :=
  ⟨C10_empty_patterns_match_all.1 "/anything",
   C10_empty_patterns_match_all.2.1 "PATCH",
   C10_empty_patterns_match_all.2.2 c3rule c3ctx rfl rfl⟩

/-- Counterexample for C1: devices 0 and 21845 both register
successfully, yet `3 * 21845` wraps mod 2^16, their token triplets
overlap (token 0x8001 belongs to both), and in the final registry the
shared token resolves to device 21845 — device 0 no longer has three
live entries, refuting the claimed disjointness for all distinct IDs. -/
theorem C1_token_collision_counterexample :
    exceptIsOk (RegisterAll NewDeviceRegistry [dev0, devBig]) = true ∧
    dev0.ID ≠ devBig.ID ∧
    ComputeToken dev0 1 = ComputeToken devBig 2 ∧
    mapLookup cexReg.devices dev0.ID = some regDev0 ∧
    (mapLookup cexReg.tokens (ComputeToken regDev0 1)).map Device.ID =
      some devBig.ID :=
  ⟨rfl, by decide, rfl, rfl, rfl⟩

/-- Counterexample for C2: `c2rule1` (allow, routes `["*"]`) and
`c2rule2` (deny, routes `["/x"]`) satisfy the spec's conflict condition
(route overlap via wildcard, equal method, same priority, opposite
effects), yet the load succeeds: `checkConflict` compares routes by
string equality only. -/
theorem C2_wildcard_route_counterexample :
    specConflict c2rule1 c2rule2 = true ∧
    (LoadFromJSON c2engine (some c2policy)).1 = none ∧
    GetPolicy (LoadFromJSON c2engine (some c2policy)).2 = c2policy :=
  ⟨rfl, rfl, rfl⟩

/-- Counterexample for C3: the only rule matches the context but has
priority `-5`; because the running maximum starts at `-1`, the rule is
never selected and `Evaluate` falls through to the default deny instead
of returning the matching rule's effect/ID/name. -/
theorem C3_negative_priority_counterexample :
    ruleMatches c3rule c3ctx = true ∧
    c3engine.policy.rules = [c3rule] ∧
    c3rule.priority < 0 ∧
    Evaluate c3engine c3ctx =
      { effect := "deny", reason := "no matching policy rule",
        ruleID := "", ruleName := "" } :=
  ⟨rfl, rfl, by decide, rfl⟩

/-- Counterexample for C4: request `c4req` carries the well-formed
token 999 which the registry cannot resolve, yet the gate silently
falls back to the header-supplied device 5, the policy allows, and the
request passes (outcome `next`, audit decision `"allow"`) — it is not
rejected and no rejection event is emitted. -/
theorem C4_unknown_token_counterexample :
    parseUint c4req.tokenIDHeader 16 = some 999 ∧
    exceptIsOk (GetDeviceByToken c4reg 999) = false ∧
    (Clearance c4config c4req).1 = .next 5 "data" 0x03030303 ∧
    (Clearance c4config c4req).2.map AuditEvent.decision = ["allow"] :=
  ⟨rfl, rfl, rfl, rfl⟩

/-- Counterexample for C7: device 0 is present in the registry after
two successful registrations, but resolving its computed token at
offset 1 returns device 21845 with offset 2, not device 0 with
offset 1 — the round trip fails once token triplets collide. -/
theorem C7_round_trip_counterexample :
    exceptIsOk (RegisterAll NewDeviceRegistry [dev0, devBig]) = true ∧
    mapLookup cexReg.devices dev0.ID = some regDev0 ∧
    GetDeviceByToken cexReg (ComputeToken regDev0 1) = .ok (regDevBig, 2) ∧
    regDevBig.ID ≠ regDev0.ID :=
  ⟨rfl, rfl, rfl, by decide⟩

/-- The writer loop calls `Write` once per registered writer. -/
theorem writeAll_count (ws : List (AuditEvent → Option String))
    (e : AuditEvent) (acc : Option String) :
    (writeAll ws e acc).2 = ws.length := by
  induction ws generalizing acc with
  | nil => rfl
  | cons w ws ih => simp [writeAll, ih]

/-- The writer loop returns the last error produced by any writer, or
its accumulator when every writer succeeds. -/
theorem writeAll_lastErr (ws : List (AuditEvent → Option String))
    (e : AuditEvent) (acc : Option String) :
    (writeAll ws e acc).1 =
      ((ws.filterMap fun w => w e).getLast?).or acc := by
  induction ws generalizing acc with
  | nil => rfl
  | cons w ws ih =>
    simp only [writeAll, List.filterMap_cons]
    cases hw : w e with
    | none => simp [hw, ih]
    | some err =>
      simp only [hw]
      rw [ih]
      cases hfm : ws.filterMap (fun w => w e) with
      | nil => simp
      | cons x xs =>
        have hy := List.getLast?_eq_getLast (x :: xs) (by simp)
        simp [hy]

/-- A generated event ID always carries the `evt-` marker, so it is
never empty (on both the random and the timestamp-fallback path). -/
theorem generateEventID_ne_empty (env : AuditEnv) : generateEventID env ≠ "" := by
  unfold generateEventID
  cases env.randBytes with
  | none =>
    intro h
    have := congrArg String.length h
    simp at this
    exact absurd this.1 (by decide)
  | some b =>
    intro h
    have := congrArg String.length h
    simp at this
    exact absurd this.1 (by decide)

/-- Claim C9 (confirmed): when disabled, `Log` performs zero writer
invocations and returns success with the event untouched; when
enabled, it assigns the generated (non-empty) event ID when the event
ID is empty, a non-zero timestamp when the timestamp is zero (the
current UTC time is never the zero time), invokes `Write` on every
registered writer, and returns the last error produced by any writer —
`none` exactly when all writers succeed. -/
theorem C9_audit_log_contract (l : Logger) (env : AuditEnv)
    (event : AuditEvent) :
    (l.enabled = false → Log l env event = (none, event, 0)) ∧
    (l.enabled = true →
      (Log l env event).2.2 = l.writers.length ∧
      (event.eventID = "" →
        ((Log l env event).2.1).eventID = generateEventID env ∧
        ((Log l env event).2.1).eventID ≠ "") ∧
      (event.eventID ≠ "" → ((Log l env event).2.1).eventID = event.eventID) ∧
      (event.timestamp = 0 → env.nowNanos ≠ 0 →
        ((Log l env event).2.1).timestamp ≠ 0) ∧
      (Log l env event).1 =
        ((l.writers.filterMap fun w => w (Log l env event).2.1).getLast?).or
          none) := by
  constructor
  · intro hoff
    simp [Log, hoff]
  · intro hon
    have hlog : Log l env event =
        (let event1 :=
          if event.eventID = "" then
            { event with eventID := generateEventID env }
          else event
        let event2 :=
          if event1.timestamp = 0 then
            { event1 with timestamp := env.nowNanos }
          else event1
        ((writeAll l.writers event2 none).1, event2,
          (writeAll l.writers event2 none).2)) := by
      simp [Log, hon]
    rw [hlog]
    refine ⟨writeAll_count _ _ _, ?_, ?_, ?_, ?_⟩
    · intro hid
      constructor
      · simp only [hid, if_pos rfl]
        by_cases ht : event.timestamp = 0 <;> simp [ht]
      · simp only [hid, if_pos rfl]
        by_cases ht : event.timestamp = 0 <;>
          simp [ht, generateEventID_ne_empty env]
    · intro hid
      rw [if_neg hid]
      by_cases ht : event.timestamp = 0 <;> simp [ht]
    · intro ht hnow
      by_cases hid : event.eventID = "" <;> simp [hid, ht, hnow]
    · exact writeAll_lastErr _ _ _

/-- Witness for C9: the contract applied to `c9logger`, discharging
the enabled/empty-ID/zero-timestamp hypotheses at concrete inputs. -/
theorem C9_audit_log_contract_witness :
    (Log c9logger c9env c9event).2.2 = 2 ∧
    ((Log c9logger c9env c9event).2.1).eventID = "evt-42" ∧
    ((Log c9logger c9env c9event).2.1).timestamp ≠ 0 ∧
    (Log c9logger c9env c9event).1 = some "writer one failed" := by
  have h := (C9_audit_log_contract c9logger c9env c9event).2 rfl
  refine ⟨h.1, ?_, h.2.2.2.1 rfl (by decide), ?_⟩
  · rw [(h.2.1 rfl).1]
    rfl
  · rw [h.2.2.2.2]
    rfl

/-- Claim C6 (confirmed): a failing load (parse failure or any
validation failure) returns an error and leaves the active policy
untouched, while a successful load replaces the entire active policy;
the error cases are exactly parse failure or `Validate` failure. -/
theorem C6_all_or_nothing_load (e : Engine) (parsed : Option Policy) :
    (∀ msg, (LoadFromJSON e parsed).1 = some msg →
      (LoadFromJSON e parsed).2 = e ∧
      GetPolicy (LoadFromJSON e parsed).2 = GetPolicy e) ∧
    ((LoadFromJSON e parsed).1 = none →
      ∀ p, parsed = some p → GetPolicy (LoadFromJSON e parsed).2 = p) ∧
    (((LoadFromJSON e parsed).1).isSome = true ↔
      (parsed = none ∨
        ∃ p, parsed = some p ∧ exceptIsOk (Validate e p) = false)) := by
  match hp : parsed with
  | none => simp [LoadFromJSON]
  | some policy =>
    match hv : Validate e policy with
    | .error msg =>
      refine ⟨fun m hm => by simp [LoadFromJSON, hv], ?_, ?_⟩
      · intro habs
        simp [LoadFromJSON, hv] at habs
      · simp [LoadFromJSON, hv, exceptIsOk]
    | .ok u =>
      refine ⟨fun m hm => ?_, ?_, ?_⟩
      · simp [LoadFromJSON, hv] at hm
      · intro _ p hp2
        cases hp2
        simp [LoadFromJSON, hv, GetPolicy]
      · simp [LoadFromJSON, hv, exceptIsOk]

/-- Witness for C6: a load whose policy misses the version string
fails and leaves the engine unchanged; a valid load replaces the
policy. -/
theorem C6_all_or_nothing_load_witness :
    (LoadFromJSON c2engine (some { version := "", rules := [] })).2 =
      c2engine ∧
    GetPolicy (LoadFromJSON c2engine (some c2policy)).2 = c2policy :=
  ⟨((C6_all_or_nothing_load c2engine
      (some { version := "", rules := [] })).1
      "policy validation failed: policy version is required" rfl).1,
   (C6_all_or_nothing_load c2engine (some c2policy)).2.1 rfl c2policy rfl⟩

/-- Full characterisation of the selection loop of `Evaluate`: the
final running maximum dominates the priority of every matching rule in
the scanned list, and either nothing was selected (state unchanged) or
the selected rule `w` is a matching rule whose priority exceeds the
initial maximum, such that every *earlier* matching rule has strictly
smaller priority (first-encountered wins on ties). -/
theorem selectRule_spec (ctx : Context) :
    ∀ (l : List Rule) (m : Option Rule) (hp : Int),
      (∀ r ∈ l, ruleMatches r ctx = true →
        r.priority ≤ (selectRule ctx m hp l).2) ∧
      (hp ≤ (selectRule ctx m hp l).2) ∧
      (selectRule ctx m hp l = (m, hp) ∨
        ∃ w pre post, l = pre ++ w :: post ∧
          (selectRule ctx m hp l).1 = some w ∧
          (selectRule ctx m hp l).2 = w.priority ∧
          ruleMatches w ctx = true ∧ hp < w.priority ∧
          ∀ r ∈ pre, ruleMatches r ctx = true → r.priority < w.priority) := by
  intro l
  induction l with
  | nil =>
    intro m hp
    exact ⟨by simp, le_refl hp, Or.inl rfl⟩
  | cons rule rest ih =>
    intro m hp
    by_cases hcond : ruleMatches rule ctx = true ∧ hp < rule.priority
    · have hstep : selectRule ctx m hp (rule :: rest) =
          selectRule ctx (some rule) rule.priority rest := by
        simp [selectRule, hcond.1, hcond.2]
      obtain ⟨ih1, ihle, ih2⟩ := ih (some rule) rule.priority
      have hple : rule.priority ≤ (selectRule ctx m hp (rule :: rest)).2 := by
        rw [hstep]; exact ihle
      refine ⟨?_, ?_, ?_⟩
      · intro r hr hrm
        rcases List.mem_cons.mp hr with heq | hmem
        · subst heq; exact hple
        · rw [hstep]; exact ih1 r hmem hrm
      · exact le_of_lt (lt_of_lt_of_le hcond.2 hple)
      · rcases ih2 with heq | ⟨w, pre, post, hsplit, h1, h2, hw, hlt, hpre⟩
        · refine Or.inr ⟨rule, [], rest, by simp, ?_, ?_, hcond.1, hcond.2,
            by simp⟩
          · rw [hstep, heq]
          · rw [hstep, heq]
        · refine Or.inr ⟨w, rule :: pre, post, by simp [hsplit], ?_, ?_, hw,
            lt_trans hcond.2 hlt, ?_⟩
          · rw [hstep]; exact h1
          · rw [hstep]; exact h2
          · intro r hr hrm
            rcases List.mem_cons.mp hr with heq2 | hmem
            · subst heq2; exact hlt
            · exact hpre r hmem hrm
    · have hstep : selectRule ctx m hp (rule :: rest) =
          selectRule ctx m hp rest := by
        rcases Decidable.not_and_iff_or_not.mp hcond with hnm | hnp
        · simp [selectRule, hnm]
        · simp [selectRule, hnp]
      obtain ⟨ih1, ihle, ih2⟩ := ih m hp
      have hrule_le : ruleMatches rule ctx = true → rule.priority ≤ hp := by
        intro hrm
        by_contra hgt
        exact hcond ⟨hrm, by omega⟩
      refine ⟨?_, by rw [hstep]; exact ihle, ?_⟩
      · intro r hr hrm
        rcases List.mem_cons.mp hr with heq | hmem
        · subst heq
          rw [hstep]
          exact le_trans (hrule_le hrm) ihle
        · rw [hstep]; exact ih1 r hmem hrm
      · rcases ih2 with heq | ⟨w, pre, post, hsplit, h1, h2, hw, hlt, hpre⟩
        · exact Or.inl (by rw [hstep]; exact heq)
        · refine Or.inr ⟨w, rule :: pre, post, by simp [hsplit], ?_, ?_, hw,
            hlt, ?_⟩
          · rw [hstep]; exact h1
          · rw [hstep]; exact h2
          · intro r hr hrm
            rcases List.mem_cons.mp hr with heq2 | hmem
            · subst heq2
              exact lt_of_le_of_lt (hrule_le hrm) hlt
            · exact hpre r hmem hrm

/-- Claim C3, amended (the claim fails for negative priorities, see the
counterexample): whenever some rule matching the context has
non-negative priority, `Evaluate` returns the effect, rule ID and rule
name of the matching rule with the highest priority, and among several
matching rules sharing that highest priority the one encountered first
in iteration wins.  Matching rules of negative priority are never
selected, because the running maximum starts at `-1`. -/
theorem C3_winner_selection_amended (e : Engine) (ctx : Context) (r : Rule)
    (hr : r ∈ e.policy.rules) (hm : ruleMatches r ctx = true)
    (hp : 0 ≤ r.priority) :
    ∃ w pre post, e.policy.rules = pre ++ w :: post ∧
      ruleMatches w ctx = true ∧
      (∀ r2 ∈ e.policy.rules, ruleMatches r2 ctx = true →
        r2.priority ≤ w.priority) ∧
      (∀ r2 ∈ pre, ruleMatches r2 ctx = true → r2.priority < w.priority) ∧
      Evaluate e ctx =
        { effect := w.effect,
          reason := (if w.effect == "allow" then "allowed by rule "
            else "denied by rule ") ++ w.name,
          ruleID := w.id, ruleName := w.name } := by
  obtain ⟨inv1, _, inv2⟩ := selectRule_spec ctx e.policy.rules none (-1)
  have hle := inv1 r hr hm
  rcases inv2 with heq | ⟨w, pre, post, hsplit, h1, h2, hw, _, hpre⟩
  · rw [heq] at hle
    omega
  · refine ⟨w, pre, post, hsplit, hw, ?_, hpre, ?_⟩
    · intro r2 hr2 hrm2
      have := inv1 r2 hr2 hrm2
      rw [h2] at this
      exact this
    · unfold Evaluate
      rw [h1]

/-- Witness for C3 (amended): the allow-everything rule at priority 1
wins in the concrete engine. -/
theorem C3_winner_selection_amended_witness :
    ∃ w pre post, c4engine.policy.rules = pre ++ w :: post ∧
      ruleMatches w c3ctx = true ∧
      (∀ r2 ∈ c4engine.policy.rules, ruleMatches r2 c3ctx = true →
        r2.priority ≤ w.priority) ∧
      (∀ r2 ∈ pre, ruleMatches r2 c3ctx = true → r2.priority < w.priority) ∧
      Evaluate c4engine c3ctx =
        { effect := w.effect,
          reason := (if w.effect == "allow" then "allowed by rule "
            else "denied by rule ") ++ w.name,
          ruleID := w.id, ruleName := w.name } :=
  C3_winner_selection_amended c4engine c3ctx c4rule (by decide) rfl
    (by decide)

/-- A conflict message is never the empty string. -/
theorem conflictMsg_ne_empty (route m : String) : conflictMsg route m ≠ "" := by
  intro h
  have hlen := congrArg String.length h
  have h29 : "conflicting effects on route ".length = 29 := rfl
  simp [conflictMsg] at hlen
  omega

/-- `checkConflict` reports a (non-empty) conflict whenever two rules
have opposite effects, equal priority, a common route string, and
overlapping methods. -/
theorem checkConflict_ne (r1 r2 : Rule)
    (heff : r1.effect ≠ r2.effect) (hpri : r1.priority = r2.priority)
    (hroute : ∃ route ∈ r1.routes, route ∈ r2.routes)
    (hmeth : ∃ m1 ∈ r1.methods, ∃ m2 ∈ r2.methods,
      m1 = m2 ∨ m1 = "*" ∨ m2 = "*") :
    checkConflict r1 r2 ≠ "" := by
  obtain ⟨route, hin1, hin2⟩ := hroute
  obtain ⟨m1, hm1, m2, hm2, hover⟩ := hmeth
  unfold checkConflict
  rw [if_pos ⟨heff, hpri⟩]
  have hmc : ∀ rt, methodConflict rt r1.methods r2.methods ≠ none := by
    intro rt hnone
    unfold methodConflict at hnone
    rw [List.findSome?_eq_none_iff] at hnone
    have h1 := hnone m1 hm1
    rw [List.findSome?_eq_none_iff] at h1
    have h2 := h1 m2 hm2
    rcases hover with h | h | h <;> simp [h] at h2
  cases houter : r1.routes.findSome? (fun route1 =>
      r2.routes.findSome? fun route2 =>
        if route1 == route2 then methodConflict route1 r1.methods r2.methods
        else none) with
  | none =>
    rw [List.findSome?_eq_none_iff] at houter
    have hr := houter route hin1
    rw [List.findSome?_eq_none_iff] at hr
    have hrr := hr route hin2
    simp at hrr
    exact (hmc route hrr).elim
  | some s =>
    obtain ⟨route1, _, hsome⟩ := List.exists_of_findSome?_eq_some houter
    obtain ⟨route2, _, hsome2⟩ := List.exists_of_findSome?_eq_some hsome
    by_cases heq : route1 == route2
    · rw [if_pos heq] at hsome2
      unfold methodConflict at hsome2
      obtain ⟨x1, _, hx1⟩ := List.exists_of_findSome?_eq_some hsome2
      obtain ⟨x2, _, hx2⟩ := List.exists_of_findSome?_eq_some hx1
      by_cases hcond : (x1 == x2 || x1 == "*" || x2 == "*") = true
      · rw [if_pos hcond] at hx2
        cases hx2
        exact conflictMsg_ne_empty route1 x1
      · rw [if_neg hcond] at hx2
        cases hx2
    · rw [if_neg heq] at hsome2
      cases hsome2

/-- The conflict accumulator of the validation loop only ever grows:
everything accumulated is part of a successful result. -/
theorem validateRules_ok_mono (registry : Option DeviceRegistry) :
    ∀ (rules : List Rule) (i : Nat) (seen acc final : List String),
      validateRules registry i seen acc rules = .ok final →
      ∀ x ∈ acc, x ∈ final := by
  intro rules
  induction rules with
  | nil =>
    intro i seen acc final hok x hx
    cases hok
    exact hx
  | cons rule rest ih =>
    intro i seen acc final hok x hx
    unfold validateRules at hok
    cases hcr : checkRule registry i rule seen with
    | some msg => rw [hcr] at hok; cases hok
    | none =>
      rw [hcr] at hok
      exact ih (i + 1) (rule.id :: seen) _ final hok x
        (List.mem_append_left _ hx)

/-- If the rule list contains (in order) two rules with a non-empty
`checkConflict`, a successful validation loop returns a non-empty
conflict list. -/
theorem validateRules_conflict_ne_nil (registry : Option DeviceRegistry)
    (r1 r2 : Rule) (hne : checkConflict r1 r2 ≠ "") :
    ∀ (rules : List Rule), [r1, r2].Sublist rules →
      ∀ (i : Nat) (seen acc final : List String),
        validateRules registry i seen acc rules = .ok final →
        final ≠ [] := by
  intro rules
  induction rules with
  | nil =>
    intro hsub
    simp at hsub
  | cons head rest ih =>
    intro hsub i seen acc final hok
    unfold validateRules at hok
    cases hcr : checkRule registry i head seen with
    | some msg => rw [hcr] at hok; cases hok
    | none =>
      rw [hcr] at hok
      cases hsub with
      | cons _ hsub2 =>
        exact ih hsub2 (i + 1) (head.id :: seen) _ final hok
      | cons₂ _ hsub2 =>
        have hr2 : r2 ∈ rest := List.singleton_sublist.mp hsub2
        have hmem : (r1.id ++ " vs " ++ r2.id ++ ": " ++ checkConflict r1 r2)
            ∈ rest.filterMap fun other =>
              if checkConflict r1 other = "" then none
              else some (r1.id ++ " vs " ++ other.id ++ ": " ++
                checkConflict r1 other) := by
          exact List.mem_filterMap.mpr ⟨r2, hr2, by rw [if_neg hne]⟩
        have hfin := validateRules_ok_mono registry rest (i + 1)
          (r1.id :: seen) _ final hok _ (List.mem_append_right _ hmem)
        intro hnil
        rw [hnil] at hfin
        cases hfin

/-- Claim C2, amended (the claim fails for wildcard routes, see the
counterexample): `checkConflict` compares routes by string equality
only — no wildcard widening on routes.  For every pair of rules
appearing in order in a policy with the same priority, opposite
effects, a common route string, and overlapping methods (equality or
method wildcard `*`), `Validate` returns an error and the load is
aborted leaving the active policy unchanged. -/
theorem C2_conflict_detection_amended (e : Engine) (p : Policy)
    (r1 r2 : Rule) (hsub : [r1, r2].Sublist p.rules)
    (heff : r1.effect ≠ r2.effect) (hpri : r1.priority = r2.priority)
    (hroute : ∃ route ∈ r1.routes, route ∈ r2.routes)
    (hmeth : ∃ m1 ∈ r1.methods, ∃ m2 ∈ r2.methods,
      m1 = m2 ∨ m1 = "*" ∨ m2 = "*") :
    exceptIsOk (Validate e p) = false ∧
    ((LoadFromJSON e (some p)).1).isSome = true ∧
    GetPolicy (LoadFromJSON e (some p)).2 = GetPolicy e := by
  have hne := checkConflict_ne r1 r2 heff hpri hroute hmeth
  have hval : exceptIsOk (Validate e p) = false := by
    unfold Validate
    by_cases hv : p.version = ""
    · simp [hv, exceptIsOk]
    · rw [if_neg hv]
      cases hvr : validateRules e.registry 0 [] [] p.rules with
      | error msg => simp [exceptIsOk]
      | ok conflicts =>
        have hnn : conflicts ≠ [] :=
          validateRules_conflict_ne_nil e.registry r1 r2 hne p.rules hsub
            0 [] [] conflicts hvr
        have hpos : 0 < conflicts.length := List.length_pos.mpr hnn
        simp [hpos, exceptIsOk]
  refine ⟨hval, ?_, ?_⟩
  · unfold LoadFromJSON
    cases hV : Validate e p with
    | error msg => simp [hV]
    | ok u => rw [hV] at hval; simp [exceptIsOk] at hval
  · unfold LoadFromJSON GetPolicy
    cases hV : Validate e p with
    | error msg => simp [hV]
    | ok u => rw [hV] at hval; simp [exceptIsOk] at hval

/-- Witness for C2 (amended): the genuinely conflicting pair
`c2wrule1`/`c2wrule2` (same route string, method, priority; opposite
effects) aborts the load. -/
theorem C2_conflict_detection_amended_witness :
    exceptIsOk (Validate c2engine c2wpolicy) = false ∧
    ((LoadFromJSON c2engine (some c2wpolicy)).1).isSome = true ∧
    GetPolicy (LoadFromJSON c2engine (some c2wpolicy)).2 =
      GetPolicy c2engine :=
  C2_conflict_detection_amended c2engine c2wpolicy c2wrule1 c2wrule2
    (List.Sublist.refl _) (by decide) rfl
    ⟨"/t", by decide, by decide⟩
    ⟨"GET", by decide, "GET", by decide, Or.inl rfl⟩

/-- Erasing an unrelated key does not change lookups. -/
theorem mapLookup_erase_ne (m : List (Nat × Device)) (key key2 : Nat)
    (h : key ≠ key2) : mapLookup (mapErase m key) key2 = mapLookup m key2 := by
  induction m with
  | nil => rfl
  | cons p rest ih =>
    obtain ⟨k, v⟩ := p
    by_cases hk : k = key
    · subst hk
      have hk2 : ¬(k = key2) := h
      simp [mapErase, mapLookup, hk2, ih]
    · by_cases hk2 : k = key2
      · subst hk2
        simp [mapErase, mapLookup, hk]
      · simp [mapErase, mapLookup, hk, hk2, ih]

/-- Lookup after a Go-map insert: the new key shadows, other keys are
untouched. -/
theorem mapLookup_insert (m : List (Nat × Device)) (key key2 : Nat)
    (v : Device) :
    mapLookup (mapInsert m key v) key2 =
      if key = key2 then some v else mapLookup m key2 := by
  by_cases h : key = key2
  · simp [mapInsert, mapLookup, h]
  · simp [mapInsert, mapLookup, h, mapLookup_erase_ne m key key2 h]

/-- Below the wrap threshold the token formula needs no 16-bit
reduction. -/
theorem ComputeToken_small (d : Device) (o : Nat) (hid : d.ID < 10922)
    (ho : o < 3) : ComputeToken d o = 0x8000 + d.ID * 3 + o := by
  unfold ComputeToken
  omega

/-- The empty registry satisfies the invariant. -/
theorem RegInv_empty : RegInv NewDeviceRegistry := by
  constructor
  · intro k d h
    cases h
  · intro t d h
    cases h

/-- `Register` preserves the registry invariant for small device
IDs. -/
theorem Register_preserves_inv (r : DeviceRegistry) (dev : Device)
    (r2 : DeviceRegistry) (hsmall : dev.ID < 10922) (hinv : RegInv r)
    (hok : Register r dev = .ok r2) : RegInv r2 := by
  unfold Register at hok
  cases hguard : (mapLookup r.devices dev.ID).isSome with
  | true => rw [if_pos hguard] at hok; cases hok
  | false =>
    rw [if_neg (by simp [hguard])] at hok
    have hnone : mapLookup r.devices dev.ID = none :=
      Option.not_isSome_iff_eq_none.mp (by simp [hguard])
    cases hok
    set dev2 : Device :=
      { dev with TokenBase := (0x8000 + dev.ID * 3 % 65536) % 65536 }
      with hdev2
    have hid2 : dev2.ID = dev.ID := rfl
    have ht : ∀ i, i < 3 → ComputeToken dev2 i = 0x8000 + dev.ID * 3 + i := by
      intro i hi
      rw [ComputeToken_small dev2 i (by rw [hid2]; exact hsmall) hi, hid2]
    constructor
    · intro k d hkd
      rw [mapLookup_insert] at hkd
      by_cases hk : dev.ID = k
      · rw [if_pos hk] at hkd
        cases hkd
        refine ⟨by rw [hid2, hk], by rw [hid2]; exact hsmall, ?_, ?_⟩
        · show dev2.TokenBase = 0x8000 + dev2.ID * 3
          rw [hid2]
          show (0x8000 + dev.ID * 3 % 65536) % 65536 = 0x8000 + dev.ID * 3
          omega
        · intro o ho
          rw [hid2]
          rw [ht 2 (by omega), ht 1 (by omega), ht 0 (by omega),
            mapLookup_insert, mapLookup_insert, mapLookup_insert]
          interval_cases o
          · rw [if_neg (by omega), if_neg (by omega), if_pos (by omega)]
          · rw [if_neg (by omega), if_pos (by omega)]
          · rw [if_pos (by omega)]
      · rw [if_neg hk] at hkd
        obtain ⟨hdk, hds, hdb, hdt⟩ := hinv.1 k d hkd
        have hne : d.ID ≠ dev.ID := by
          intro he
          rw [he] at hdk
          exact hk hdk
        refine ⟨hdk, hds, hdb, ?_⟩
        intro o ho
        rw [ht 2 (by omega), ht 1 (by omega), ht 0 (by omega),
          mapLookup_insert, mapLookup_insert, mapLookup_insert,
          if_neg (by omega), if_neg (by omega), if_neg (by omega)]
        exact hdt o ho
    · intro t d htd
      rw [ht 2 (by omega), ht 1 (by omega), ht 0 (by omega),
        mapLookup_insert, mapLookup_insert, mapLookup_insert] at htd
      by_cases h2 : 0x8000 + dev.ID * 3 + 2 = t
      · rw [if_pos h2] at htd
        cases htd
        refine ⟨?_, 2, by omega, by rw [hid2]; omega⟩
        rw [mapLookup_insert, hid2, if_pos rfl]
      · rw [if_neg h2] at htd
        by_cases h1 : 0x8000 + dev.ID * 3 + 1 = t
        · rw [if_pos h1] at htd
          cases htd
          refine ⟨?_, 1, by omega, by rw [hid2]; omega⟩
          rw [mapLookup_insert, hid2, if_pos rfl]
        · rw [if_neg h1] at htd
          by_cases h0 : 0x8000 + dev.ID * 3 + 0 = t
          · rw [if_pos h0] at htd
            cases htd
            refine ⟨?_, 0, by omega, by rw [hid2]; omega⟩
            rw [mapLookup_insert, hid2, if_pos rfl]
          · rw [if_neg h0] at htd
            obtain ⟨hdev, o, ho, hto⟩ := hinv.2 t d htd
            have hne : dev.ID ≠ d.ID := by
              intro he
              rw [he] at hnone
              rw [hnone] at hdev
              cases hdev
            refine ⟨?_, o, ho, hto⟩
            rw [mapLookup_insert, if_neg hne]
            exact hdev

/-- A successful `RegisterAll` run from an invariant-satisfying
registry lands in an invariant-satisfying registry, provided all IDs
stay below the wrap threshold. -/
theorem RegisterAll_inv (devs : List Device) :
    ∀ (r r2 : DeviceRegistry), (∀ d ∈ devs, d.ID < 10922) → RegInv r →
      RegisterAll r devs = .ok r2 → RegInv r2 := by
  induction devs with
  | nil =>
    intro r r2 _ hinv hok
    cases hok
    exact hinv
  | cons d ds ih =>
    intro r r2 hsmall hinv hok
    unfold RegisterAll at hok
    cases hreg : Register r d with
    | error e => rw [hreg] at hok; cases hok
    | ok rmid =>
      rw [hreg] at hok
      exact ih rmid r2 (fun x hx => hsmall x (by simp [hx]))
        (Register_preserves_inv r d rmid (hsmall d (by simp)) hinv hreg) hok

/-- Claim C1, amended (the claim fails once the 16-bit token arithmetic
wraps, see the counterexample): restricted to device IDs below 10922 —
the range where `0x8000 + 3*ID + 2` stays within 16 bits — after any
sequence of successful `Register` calls every registered device has
exactly three live token entries (the tokens at offsets 0, 1, 2: a
token resolves to the device iff it is one of those three), and token
triplets of devices with distinct IDs are disjoint. -/
theorem C1_registry_invariant_amended (devs : List Device)
    (r : DeviceRegistry) (hsmall : ∀ d ∈ devs, d.ID < 10922)
    (hok : RegisterAll NewDeviceRegistry devs = .ok r) :
    (∀ k d, mapLookup r.devices k = some d →
      ∀ t, (mapLookup r.tokens t = some d ↔
        (t = ComputeToken d 0 ∨ t = ComputeToken d 1 ∨
         t = ComputeToken d 2))) ∧
    (∀ k1 k2 d1 d2, mapLookup r.devices k1 = some d1 →
      mapLookup r.devices k2 = some d2 → d1.ID ≠ d2.ID →
      ∀ o1 o2, o1 < 3 → o2 < 3 →
        ComputeToken d1 o1 ≠ ComputeToken d2 o2) := by
  have hinv := RegisterAll_inv devs NewDeviceRegistry r hsmall RegInv_empty hok
  constructor
  · intro k d hkd t
    obtain ⟨hdk, hds, hdb, hdt⟩ := hinv.1 k d hkd
    constructor
    · intro htd
      obtain ⟨hdev, o, ho, hto⟩ := hinv.2 t d htd
      interval_cases o
      · exact Or.inl (by rw [ComputeToken_small d 0 hds (by omega)]; omega)
      · exact Or.inr (Or.inl
          (by rw [ComputeToken_small d 1 hds (by omega)]; omega))
      · exact Or.inr (Or.inr
          (by rw [ComputeToken_small d 2 hds (by omega)]; omega))
    · intro hcase
      rcases hcase with hc | hc | hc
      · rw [hc, ComputeToken_small d 0 hds (by omega)]
        exact hdt 0 (by omega)
      · rw [hc, ComputeToken_small d 1 hds (by omega)]
        exact hdt 1 (by omega)
      · rw [hc, ComputeToken_small d 2 hds (by omega)]
        exact hdt 2 (by omega)
  · intro k1 k2 d1 d2 h1 h2 hne o1 o2 ho1 ho2
    obtain ⟨_, hs1, _, _⟩ := hinv.1 k1 d1 h1
    obtain ⟨_, hs2, _, _⟩ := hinv.1 k2 d2 h2
    rw [ComputeToken_small d1 o1 hs1 ho1, ComputeToken_small d2 o2 hs2 ho2]
    omega

/-- Witness for C1 (amended) at the one-device registry `c4reg`. -/
theorem C1_registry_invariant_witness :
    (∀ k d, mapLookup c4reg.devices k = some d →
      ∀ t, (mapLookup c4reg.tokens t = some d ↔
        (t = ComputeToken d 0 ∨ t = ComputeToken d 1 ∨
         t = ComputeToken d 2))) ∧
    (∀ k1 k2 d1 d2, mapLookup c4reg.devices k1 = some d1 →
      mapLookup c4reg.devices k2 = some d2 → d1.ID ≠ d2.ID →
      ∀ o1 o2, o1 < 3 → o2 < 3 →
        ComputeToken d1 o1 ≠ ComputeToken d2 o2) :=
  C1_registry_invariant_amended [c4device] c4reg (by decide) rfl

/-- Claim C7, amended (the claim fails once token triplets collide, see
the counterexample): restricted to device IDs below the 16-bit wrap
threshold, for every device present in the registry after a sequence of
successful `Register` calls and every offset in {0, 1, 2},
`GetDeviceByToken` applied to that device's computed token returns that
same device with that same offset, the offset being computed as
`(token - TokenBase) mod 3`. -/
theorem C7_token_round_trip_amended (devs : List Device)
    (r : DeviceRegistry) (hsmall : ∀ d ∈ devs, d.ID < 10922)
    (hok : RegisterAll NewDeviceRegistry devs = .ok r)
    (k : Nat) (d : Device) (hkd : mapLookup r.devices k = some d)
    (o : Nat) (ho : o < 3) :
    GetDeviceByToken r (ComputeToken d o) = .ok (d, o) := by
  have hinv := RegisterAll_inv devs NewDeviceRegistry r hsmall RegInv_empty hok
  obtain ⟨hdk, hds, hdb, hdt⟩ := hinv.1 k d hkd
  unfold GetDeviceByToken
  rw [ComputeToken_small d o hds ho, hdt o ho]
  have hoff : ((0x8000 + d.ID * 3 + o) % 65536 + 65536 -
      d.TokenBase % 65536) % 65536 % 3 = o := by
    rw [hdb]
    omega
  simp [hoff]

/-- Witness for C7 (amended): resolving device 5's status token in
`c4reg` returns device 5 with offset 0. -/
theorem C7_token_round_trip_witness :
    GetDeviceByToken c4reg (ComputeToken regC4dev 0) = .ok (regC4dev, 0) :=
  C7_token_round_trip_amended [c4device] c4reg (by decide) rfl 5 regC4dev
    rfl 0 (by omega)

/-- Rule matching never consults the token fields of the context. -/
theorem ruleMatches_token_irrel (rule : Rule) (route method : String)
    (deviceID : Nat) (layer : String) (clearance : Nat)
    (requestID sourceIP : String) (tid1 toff1 tid2 toff2 : Nat) :
    ruleMatches rule
      ⟨route, method, deviceID, layer, clearance, requestID, sourceIP,
        tid1, toff1⟩ =
    ruleMatches rule
      ⟨route, method, deviceID, layer, clearance, requestID, sourceIP,
        tid2, toff2⟩ := rfl

/-- The selection loop never consults the token fields of the
context. -/
theorem selectRule_token_irrel (route method : String) (deviceID : Nat)
    (layer : String) (clearance : Nat) (requestID sourceIP : String)
    (tid1 toff1 tid2 toff2 : Nat) :
    ∀ (l : List Rule) (m : Option Rule) (hp : Int),
      selectRule
        ⟨route, method, deviceID, layer, clearance, requestID, sourceIP,
          tid1, toff1⟩ m hp l =
      selectRule
        ⟨route, method, deviceID, layer, clearance, requestID, sourceIP,
          tid2, toff2⟩ m hp l := by
  intro l
  induction l with
  | nil => intro m hp; rfl
  | cons rule rest ih =>
    intro m hp
    simp only [selectRule,
      ruleMatches_token_irrel rule route method deviceID layer clearance
        requestID sourceIP tid1 toff1 tid2 toff2, ih]

/-- `Evaluate` never consults the token fields of the context. -/
theorem Evaluate_token_irrel (e : Engine) (route method : String)
    (deviceID : Nat) (layer : String) (clearance : Nat)
    (requestID sourceIP : String) (tid1 toff1 tid2 toff2 : Nat) :
    Evaluate e
      ⟨route, method, deviceID, layer, clearance, requestID, sourceIP,
        tid1, toff1⟩ =
    Evaluate e
      ⟨route, method, deviceID, layer, clearance, requestID, sourceIP,
        tid2, toff2⟩ := by
  unfold Evaluate
  rw [selectRule_token_irrel route method deviceID layer clearance
    requestID sourceIP tid1 toff1 tid2 toff2]

/-- Claim C4, amended (the claim fails on the code, see the
counterexample): a request carrying a well-formed Token-ID that the
registry cannot resolve is NOT rejected for that reason; the gate
silently ignores the token and behaves exactly as if the Token-ID
header were absent, falling back to the header-supplied device, layer
and clearance identity (same outcome, same audit events). -/
theorem C4_unknown_token_amended (config : ClearanceConfig) (req : Request)
    (t : Nat) (hparse : parseUint req.tokenIDHeader 16 = some t)
    (hfail : ∀ reg, config.deviceRegistry = some reg →
      exceptIsOk (GetDeviceByToken reg t) = false) :
    Clearance config req = Clearance config { req with tokenIDHeader := "" } := by
  obtain ⟨dh, lh, ch, th, pth, u, mth, ra, rid⟩ := req
  have hth : th ≠ "" := by
    intro h
    rw [h] at hparse
    simp [parseUint] at hparse
  have hres : ∀ d l c, resolveToken config.deviceRegistry th d l c =
      .ok (d, l, c, t, 0) := by
    intro d l c
    unfold resolveToken
    rw [if_neg hth, hparse]
    cases hreg : config.deviceRegistry with
    | none => rfl
    | some reg =>
      have hbad := hfail reg hreg
      cases hbt : GetDeviceByToken reg t with
      | ok x => rw [hbt] at hbad; simp [exceptIsOk] at hbad
      | error msg => simp [hbt]
  unfold Clearance
  cases hen : config.enabled with
  | false => simp
  | true =>
    simp only [Bool.not_true, Bool.false_eq_true, if_false]
    cases parseDeviceHeader dh with
    | error reason => rfl
    | ok deviceID0 =>
      cases parseClearanceHeader ch with
      | error reason => rfl
      | ok clearance0 =>
        cases parseLayerHeader lh with
        | error reason => rfl
        | ok layer0 =>
          dsimp only
          rw [hres deviceID0 layer0 clearance0]
          have hres2 : resolveToken config.deviceRegistry "" deviceID0
              layer0 clearance0 = .ok (deviceID0, layer0, clearance0, 0, 0) :=
            rfl
          rw [hres2]
          dsimp only
          cases resolveDevice config.deviceRegistry deviceID0 layer0
              clearance0 with
          | error reason => rfl
          | ok lc =>
            obtain ⟨layer, clearance⟩ := lc
            dsimp only
            cases config.policyEngine with
            | none => rfl
            | some engine =>
              dsimp only
              rw [Evaluate_token_irrel engine pth mth deviceID0 layer
                clearance rid ra t 0 0 0]
              rfl

/-- Witness for C4 (amended): with the unknown token 999 the concrete
gate behaves exactly as without the Token-ID header. -/
theorem C4_unknown_token_witness :
    Clearance c4config c4req =
      Clearance c4config { c4req with tokenIDHeader := "" } :=
  C4_unknown_token_amended c4config c4req 999 rfl
    (fun reg hreg => by
      cases hreg
      rfl)

end GoGov
